import Mathlib

/-!
Shallow embedding of the memory migration and backup engine
(tools/agents/scripts/memory_migration.py) and verification of its
specification.

Modelling conventions:
* A file that may be absent is an `Option` of its parsed content.
* The SQLite store file is a `SqliteDb` value; each optional table is an
  `Option (List row)` (`none` = the table does not exist); `SELECT * FROM t
  ORDER BY id` is modelled by an insertion sort on the id field.
* REAL columns and vector components are modelled as `ℚ` (no arithmetic is
  performed on them, they only pass through).
* The Qdrant client and the SentenceTransformer model are `Option` /
  `Bool` fields of `MigrationState` (`none` / `false` = construction
  failed, i.e. degraded mode, per `MemoryMigration.__init__`).
* A Python function that can terminate with an uncaught exception is
  embedded with an `Except String` result; `export_sqlite` additionally
  reports whether its connection is still open at termination
  (`connLeaked`), because the source has no try/finally around
  `conn.close()`.
* `hashlib.md5` is an opaque external capability, passed as a function
  argument `md5 : String → String`.
-/

namespace MemoryMigration

/-- A row of the `memories` table. -/
structure MemRow where
  id : Nat
  timestamp : String
  type_ : String
  content : String
deriving DecidableEq

/-- A row of the `session_memories` table. -/
structure SessionRow where
  id : Nat
  session_id : String
  timestamp : String
  type_ : String
  content : String
  context : Option String
  importance : Int
deriving DecidableEq

/-- A row of the `entities` table. -/
structure EntityRow where
  id : Nat
  type_ : String
  name : String
  context : Option String
  first_seen : String
  last_seen : String
  mention_count : Int
deriving DecidableEq

/-- A row of the `relationships` table. -/
structure RelRow where
  id : Nat
  source_id : Nat
  target_id : Nat
  relation : String
  weight : ℚ
  timestamp : String
deriving DecidableEq

/-- The on-disk SQLite store: the `memories` table plus the three optional
extension tables (`none` = table absent) and the names of the indexes
created by the schema upgrade. -/
structure SqliteDb where
  memories : Option (List MemRow)
  session_memories : Option (List SessionRow)
  entities : Option (List EntityRow)
  relationships : Option (List RelRow)
  indexes : List String
deriving DecidableEq

/-- One record of the flat export produced by `export_sqlite`; the
constructor is the record's `source` discriminator
(`sqlite_memories` / `sqlite_session_memories` / `sqlite_entities` /
`sqlite_relationships`). -/
inductive ExportRecord where
  | mem : MemRow → ExportRecord
  | session : SessionRow → ExportRecord
  | entity : EntityRow → ExportRecord
  | rel : RelRow → ExportRecord
deriving DecidableEq

/-- Comparison used to model `ORDER BY id`. -/
def leId {α : Type} (key : α → Nat) (a b : α) : Prop := key a ≤ key b

instance {α : Type} (key : α → Nat) : DecidableRel (leId key) :=
  fun a b => inferInstanceAs (Decidable (key a ≤ key b))

/-- `SELECT * FROM t ORDER BY id`: the stored rows sorted by id ascending. -/
def orderById {α : Type} (key : α → Nat) (l : List α) : List α :=
  List.insertionSort (leId key) l

deriving instance DecidableEq for Except

/-- Outcome of one `export_sqlite` call: the Python return value or the
uncaught exception, plus whether the SQLite connection opened by the call
is still open when the call terminates. -/
structure SqliteRun where
  result : Except String (List ExportRecord)
  connLeaked : Bool
deriving DecidableEq

/-- `MemoryMigration.export_sqlite`. A missing store file returns `[]`
before any connection is opened. The `memories` query is not guarded: if
that table is absent, `sqlite3.OperationalError` propagates and, the
source having no try/finally, the connection stays open. The three
extension-table queries are each wrapped in try/except
`sqlite3.OperationalError`, so their absence contributes zero records. -/
def export_sqlite (dbFile : Option SqliteDb) : SqliteRun :=
  match dbFile with
  | none => ⟨.ok [], false⟩
  | some db =>
    match db.memories with
    | none => ⟨.error "no such table: memories", true⟩
    | some ms =>
      let memPart := (orderById MemRow.id ms).map ExportRecord.mem
      let sessPart := ((orderById SessionRow.id (db.session_memories.getD [])).map
        ExportRecord.session)
      let entPart := ((orderById EntityRow.id (db.entities.getD [])).map
        ExportRecord.entity)
      let relPart := ((orderById RelRow.id (db.relationships.getD [])).map
        ExportRecord.rel)
      ⟨.ok (memPart ++ sessPart ++ entPart ++ relPart), false⟩

/-- The set of table names reported by
`SELECT name FROM sqlite_master WHERE type='table'`. -/
def tablesOf (db : SqliteDb) : List String :=
  (if db.memories.isSome then ["memories"] else []) ++
  (if db.session_memories.isSome then ["session_memories"] else []) ++
  (if db.entities.isSome then ["entities"] else []) ++
  (if db.relationships.isSome then ["relationships"] else [])

/-- Effect of the `CREATE TABLE session_memories` block (table plus its two
indexes). -/
def addSessionTable (db : SqliteDb) : SqliteDb :=
  { db with
    session_memories := some []
    indexes := db.indexes ++ ["idx_session_memories_session", "idx_session_memories_type"] }

/-- Effect of the `CREATE TABLE entities` block (table plus its two
indexes). -/
def addEntitiesTable (db : SqliteDb) : SqliteDb :=
  { db with
    entities := some []
    indexes := db.indexes ++ ["idx_entities_type", "idx_entities_name"] }

/-- Effect of the `CREATE TABLE relationships` block (table plus its three
indexes). -/
def addRelationshipsTable (db : SqliteDb) : SqliteDb :=
  { db with
    relationships := some []
    indexes := db.indexes ++
      ["idx_relationships_source", "idx_relationships_target", "idx_relationships_relation"] }

/-- `MemoryMigration.upgrade_schema`: inspects the existing table names
once, then creates each of the three extension tables only if its name was
absent from that snapshot. Returns the upgraded store and the list of
tables created. A missing store file is left untouched. -/
def upgrade_schema (dbFile : Option SqliteDb) : Option SqliteDb × List String :=
  match dbFile with
  | none => (none, [])
  | some db =>
    let existing := tablesOf db
    let s1 := if "session_memories" ∈ existing then db else addSessionTable db
    let s2 := if "entities" ∈ existing then s1 else addEntitiesTable s1
    let s3 := if "relationships" ∈ existing then s2 else addRelationshipsTable s2
    (some s3,
      (if "session_memories" ∈ existing then [] else ["session_memories"]) ++
      (if "entities" ∈ existing then [] else ["entities"]) ++
      (if "relationships" ∈ existing then [] else ["relationships"]))

/-- Outcome of one `upgrade_schema` call with the connection lifecycle
made explicit: whether a connection was opened (the early return for a
missing store file opens none) and whether it is still open at
termination. -/
structure UpgradeRun where
  result : Option SqliteDb × List String
  connOpened : Bool
  connLeaked : Bool
deriving DecidableEq

/-- `MemoryMigration.upgrade_schema` with its connection tracked: the
missing-file early return happens before `sqlite3.connect`; otherwise a
connection is opened, the body runs — introspection cannot fail and each
CREATE runs only when its table is absent, so no operation on this path
raises in the modelled failure modes — and `conn.commit(); conn.close()`
release the connection on the single exit. -/
def upgrade_schema_run (dbFile : Option SqliteDb) : UpgradeRun :=
  match dbFile with
  | none => ⟨(none, []), false, false⟩
  | some db =>
    let existing := tablesOf db
    let s1 := if "session_memories" ∈ existing then db else addSessionTable db
    let s2 := if "entities" ∈ existing then s1 else addEntitiesTable s1
    let s3 := if "relationships" ∈ existing then s2 else addRelationshipsTable s2
    ⟨(some s3,
      (if "session_memories" ∈ existing then [] else ["session_memories"]) ++
      (if "entities" ∈ existing then [] else ["entities"]) ++
      (if "relationships" ∈ existing then [] else ["relationships"])),
      true, false⟩

/-- A Qdrant point's payload; every field the tool reads is read with
`payload.get`, so each is optional. -/
structure Payload where
  original_id : Option Nat
  type_ : Option String
  tags : Option (List String)
  importance : Option Int
  content : Option String
  timestamp : Option String
deriving DecidableEq

/-- A point stored in the Qdrant collection (id, vector, payload). -/
structure QdrantPoint where
  id : String
  vector : List ℚ
  payload : Payload
deriving DecidableEq

/-- The named collection: its configured vector dimension, similarity
metric, and stored points. -/
structure Collection where
  dim : Nat
  metric : String
  points : List QdrantPoint
deriving DecidableEq

/-- The Qdrant server's state: the `claude_memory` collection, if it
exists. -/
structure VectorStore where
  collection : Option Collection
deriving DecidableEq

/-- One entry of the `native`-format Qdrant export
(`{source, id, vector, payload}`). -/
structure NativeRecord where
  source : String
  id : String
  vector : List ℚ
  payload : Payload
deriving DecidableEq

/-- One entry of the `mem0`-format export. -/
structure Mem0Record where
  id : String
  memory : String
  hash : String
  metadata_type : Option String
  metadata_tags : List String
  metadata_importance : Int
  metadata_created_at : Option String
  metadata_updated_at : Option String
  user_id : String
deriving DecidableEq

/-- One entry of the `amem`-format export. -/
structure AmemRecord where
  id : String
  title : String
  content : String
  keywords : List String
  tags : List String
  links : List String
  created : Option String
  modified : Option String
  importance : Int
deriving DecidableEq

/-- The three supported export dialects. -/
inductive Format where
  | native
  | mem0
  | amem
deriving DecidableEq

/-- An exported vector record, in whichever dialect was requested. -/
inductive QExport where
  | native : NativeRecord → QExport
  | mem0 : Mem0Record → QExport
  | amem : AmemRecord → QExport
deriving DecidableEq

/-- The `native` branch of `export_qdrant`'s per-point conversion. -/
def toNative (p : QdrantPoint) : NativeRecord :=
  { source := "qdrant", id := p.id, vector := p.vector, payload := p.payload }

/-- The `mem0` branch: `payload.get` defaults are `""` for content, `[]`
for tags, `5` for importance; `type` and `timestamp` default to `None`.
`md5` is the external `hashlib.md5(...).hexdigest()` capability. -/
def toMem0 (md5 : String → String) (p : QdrantPoint) : Mem0Record :=
  { id := p.id
    memory := p.payload.content.getD ""
    hash := md5 (p.payload.content.getD "")
    metadata_type := p.payload.type_
    metadata_tags := p.payload.tags.getD []
    metadata_importance := p.payload.importance.getD 5
    metadata_created_at := p.payload.timestamp
    metadata_updated_at := p.payload.timestamp
    user_id := "claude_agent" }

/-- The `amem` branch: title is the first 50 characters of the content
followed by `"..."`; links are an explicit placeholder `[]`. -/
def toAmem (p : QdrantPoint) : AmemRecord :=
  { id := p.id
    title := (p.payload.content.getD "").take 50 ++ "..."
    content := p.payload.content.getD ""
    keywords := p.payload.tags.getD []
    tags := p.payload.tags.getD []
    links := []
    created := p.payload.timestamp
    modified := p.payload.timestamp
    importance := p.payload.importance.getD 5 }

/-- The scroll loop of `export_qdrant`: pages until the store signals "no
more", accumulating every point of the collection. A store-native error
(e.g. the collection does not exist) is caught by the surrounding
try/except and yields `[]`. -/
def scrollPoints (vs : VectorStore) : List QdrantPoint :=
  match vs.collection with
  | none => []
  | some c => c.points

/-- `MemoryMigration.export_qdrant`: `[]` when the client was never
constructed (degraded mode), otherwise every scrolled point converted to
the requested dialect. -/
def export_qdrant (qdrant : Option VectorStore) (fmt : Format)
    (md5 : String → String) : List QExport :=
  match qdrant with
  | none => []
  | some vs =>
    (scrollPoints vs).map (fun p =>
      match fmt with
      | .native => .native (toNative p)
      | .mem0 => .mem0 (toMem0 md5 p)
      | .amem => .amem (toAmem p))

/-- `export_qdrant` specialized to the `native` format as `backup` calls
it, returning the records at their artifact type. -/
def export_qdrant_native (qdrant : Option VectorStore) : List NativeRecord :=
  match qdrant with
  | none => []
  | some vs => (scrollPoints vs).map toNative

/-- The manifest written at the end of a backup. -/
structure Manifest where
  backup_id : String
  created_at : String
  files : List String
  sqlite_entries : Nat
  qdrant_entries : Nat
deriving DecidableEq

/-- One backup directory: each artifact file is optional (a directory with
no manifest is an in-progress, failed, or foreign backup). -/
structure BackupUnit where
  short_term_db : Option SqliteDb
  long_term_json : Option String
  qdrant_export : Option (List NativeRecord)
  manifest : Option Manifest
deriving DecidableEq

/-- The whole state `MemoryMigration` operates on: the live files, their
`.pre_restore` siblings, the backup directory (directories keyed by
backup id), and the two optional vector-side dependencies from
`__init__` (`qdrant` client, embedding `model`). -/
structure MigrationState where
  short_term_db : Option SqliteDb
  short_term_pre_restore : Option SqliteDb
  long_term_json : Option String
  long_term_pre_restore : Option String
  backups : List (String × BackupUnit)
  qdrant : Option VectorStore
  model : Bool
deriving DecidableEq

/-- Directory lookup in the backup dir (`backup_path.exists()`). -/
def findBackup (bid : String) : List (String × BackupUnit) → Option BackupUnit
  | [] => none
  | (k, v) :: t => if k = bid then some v else findBackup bid t

/-- A file-write event during backup, used to state write ordering. -/
inductive WriteEvent where
  | dbArtifact
  | jsonArtifact
  | qdrantArtifact
  | manifestFile
deriving DecidableEq

/-- `MemoryMigration.backup`: copies the live SQLite file and flat JSON
export verbatim when they exist, always writes the Qdrant export
artifact, then re-runs `export_sqlite` for the manifest counts and writes
the manifest last. An uncaught exception from `export_sqlite` (memories
table absent) propagates out of `backup` before the manifest is written.
Returns the backup unit and the ordered trace of file writes. -/
def backup (st : MigrationState) (now : String) (md5 : String → String) :
    Except String (String × BackupUnit × List WriteEvent) :=
  let backup_id := now
  let qdrant_export := export_qdrant_native st.qdrant
  let _ := md5
  match (export_sqlite st.short_term_db).result with
  | .error e => .error e
  | .ok sqliteRecords =>
    let files :=
      (if st.short_term_db.isSome then ["short_term.db"] else []) ++
      (if st.long_term_json.isSome then ["long_term.json"] else []) ++
      ["qdrant_export.json"]
    let manifest : Manifest :=
      { backup_id := backup_id
        created_at := now
        files := files
        sqlite_entries := sqliteRecords.length
        qdrant_entries := qdrant_export.length }
    let unit : BackupUnit :=
      { short_term_db := st.short_term_db
        long_term_json := st.long_term_json
        qdrant_export := some qdrant_export
        manifest := some manifest }
    let trace :=
      (if st.short_term_db.isSome then [WriteEvent.dbArtifact] else []) ++
      (if st.long_term_json.isSome then [WriteEvent.jsonArtifact] else []) ++
      [WriteEvent.qdrantArtifact, WriteEvent.manifestFile]
    .ok (backup_id, unit, trace)

/-- Qdrant upsert of one point: idempotent by id — an existing point with
the same id is replaced, otherwise the point is appended. -/
def upsertPoint (points : List QdrantPoint) (p : QdrantPoint) : List QdrantPoint :=
  if points.any (fun q => q.id = p.id) then
    points.map (fun q => if q.id = p.id then p else q)
  else
    points ++ [p]

/-- The `PointStruct(id=..., vector=..., payload=...)` rebuilt from one
artifact entry during restore. -/
def restorePoint (e : NativeRecord) : QdrantPoint :=
  { id := e.id, vector := e.vector, payload := e.payload }

/-- Result of `MemoryMigration.restore`: the new state, the returned
boolean, and — on the not-found path — the list of directory names printed
as "Available backups". -/
structure RestoreResult where
  state : MigrationState
  ok : Bool
  reportedAvailable : Option (List String)
deriving DecidableEq

/-- The "Restore SQLite" block of `MemoryMigration.restore`: if the
backup contains a `short_term.db` artifact, first copy the live file (if
any) to its fixed `.pre_restore` sibling, then overwrite the live file
with the artifact. -/
def restoreSqliteStep (st : MigrationState) (bu : BackupUnit) : MigrationState :=
  match bu.short_term_db with
  | none => st
  | some dbB =>
    match st.short_term_db with
    | some dbA =>
      { st with short_term_pre_restore := some dbA, short_term_db := some dbB }
    | none => { st with short_term_db := some dbB }

/-- The "Restore long_term.json" block, same preservation rule as the
SQLite block. -/
def restoreJsonStep (st : MigrationState) (bu : BackupUnit) : MigrationState :=
  match bu.long_term_json with
  | none => st
  | some jB =>
    match st.long_term_json with
    | some jA =>
      { st with long_term_pre_restore := some jA, long_term_json := some jB }
    | none => { st with long_term_json := some jB }

/-- The "Restore Qdrant" block: runs only when the artifact exists and
both the client and the embedding model were constructed (`if
qdrant_backup.exists() and self.qdrant and self.model`), and only when the
artifact list is nonempty (`if qdrant_data:`); it then deletes the
collection (a delete failure is swallowed), recreates it at the fixed
dimension 384 with cosine distance, and upserts every artifact point. It
never calls the embedding model. -/
def restoreQdrantStep (st : MigrationState) (bu : BackupUnit) : MigrationState :=
  match bu.qdrant_export, st.qdrant, st.model with
  | some data, some _, true =>
    if data.isEmpty then st
    else
      { st with
        qdrant := some
          (VectorStore.mk (some
            (Collection.mk 384 "Cosine"
              ((data.map restorePoint).foldl upsertPoint [])))) }
  | _, _, _ => st

/-- `MemoryMigration.restore`: fails (reporting the backup directory
listing) only when the directory itself is absent; a manifest is read only
to print a summary; then the three restore blocks run in order. -/
def restore (st : MigrationState) (backup_id : String) : RestoreResult :=
  match findBackup backup_id st.backups with
  | none => ⟨st, false, some (st.backups.map Prod.fst)⟩
  | some bu =>
    ⟨restoreQdrantStep (restoreJsonStep (restoreSqliteStep st bu) bu) bu, true, none⟩

/-- One line of `list_backups`' output. -/
structure BackupListing where
  id : String
  created_at : String
  sqlite_entries : Nat
  qdrant_entries : Nat
deriving DecidableEq

/-- `MemoryMigration.list_backups`: walks the sorted directory listing and
reports only directories that contain a manifest. -/
def list_backups (st : MigrationState) : List BackupListing :=
  (List.insertionSort (fun a b : String × BackupUnit => a.1 ≤ b.1) st.backups).filterMap
    (fun kv =>
      kv.2.manifest.map (fun m =>
        { id := kv.1
          created_at := m.created_at
          sqlite_entries := m.sqlite_entries
          qdrant_entries := m.qdrant_entries }))

/-! ### Generic facts about the embedded operations -/

instance {α : Type} (key : α → Nat) : IsTotal α (leId key) :=
  ⟨fun a b => Nat.le_total (key a) (key b)⟩

instance {α : Type} (key : α → Nat) : IsTrans α (leId key) :=
  ⟨fun _ _ _ h1 h2 => Nat.le_trans h1 h2⟩

theorem orderById_sorted {α : Type} (key : α → Nat) (l : List α) :
    (orderById key l).Sorted (leId key) :=
  List.sorted_insertionSort (leId key) l

theorem orderById_perm {α : Type} (key : α → Nat) (l : List α) :
    (orderById key l).Perm l :=
  List.perm_insertionSort (leId key) l

theorem orderById_length {α : Type} (key : α → Nat) (l : List α) :
    (orderById key l).length = l.length :=
  (orderById_perm key l).length_eq

theorem restoreSqliteStep_short_term_db (st : MigrationState) (bu : BackupUnit) :
    (restoreSqliteStep st bu).short_term_db =
      match bu.short_term_db with
      | some dbB => some dbB
      | none => st.short_term_db := by
  unfold restoreSqliteStep
  cases bu.short_term_db <;> cases h : st.short_term_db <;> simp [h]

theorem restoreSqliteStep_pre (st : MigrationState) (bu : BackupUnit) :
    (restoreSqliteStep st bu).short_term_pre_restore =
      match bu.short_term_db, st.short_term_db with
      | some _, some dbA => some dbA
      | _, _ => st.short_term_pre_restore := by
  unfold restoreSqliteStep
  cases bu.short_term_db <;> cases h : st.short_term_db <;> simp [h]

theorem restoreSqliteStep_other (st : MigrationState) (bu : BackupUnit) :
    (restoreSqliteStep st bu).long_term_json = st.long_term_json ∧
    (restoreSqliteStep st bu).long_term_pre_restore = st.long_term_pre_restore ∧
    (restoreSqliteStep st bu).backups = st.backups ∧
    (restoreSqliteStep st bu).qdrant = st.qdrant ∧
    (restoreSqliteStep st bu).model = st.model := by
  unfold restoreSqliteStep
  cases bu.short_term_db <;> cases h : st.short_term_db <;> simp [h]

theorem restoreJsonStep_long_term_json (st : MigrationState) (bu : BackupUnit) :
    (restoreJsonStep st bu).long_term_json =
      match bu.long_term_json with
      | some jB => some jB
      | none => st.long_term_json := by
  unfold restoreJsonStep
  cases bu.long_term_json <;> cases h : st.long_term_json <;> simp [h]

theorem restoreJsonStep_pre (st : MigrationState) (bu : BackupUnit) :
    (restoreJsonStep st bu).long_term_pre_restore =
      match bu.long_term_json, st.long_term_json with
      | some _, some jA => some jA
      | _, _ => st.long_term_pre_restore := by
  unfold restoreJsonStep
  cases bu.long_term_json <;> cases h : st.long_term_json <;> simp [h]

theorem restoreJsonStep_other (st : MigrationState) (bu : BackupUnit) :
    (restoreJsonStep st bu).short_term_db = st.short_term_db ∧
    (restoreJsonStep st bu).short_term_pre_restore = st.short_term_pre_restore ∧
    (restoreJsonStep st bu).backups = st.backups ∧
    (restoreJsonStep st bu).qdrant = st.qdrant ∧
    (restoreJsonStep st bu).model = st.model := by
  unfold restoreJsonStep
  cases bu.long_term_json <;> cases h : st.long_term_json <;> simp [h]

theorem restoreQdrantStep_other (st : MigrationState) (bu : BackupUnit) :
    (restoreQdrantStep st bu).short_term_db = st.short_term_db ∧
    (restoreQdrantStep st bu).short_term_pre_restore = st.short_term_pre_restore ∧
    (restoreQdrantStep st bu).long_term_json = st.long_term_json ∧
    (restoreQdrantStep st bu).long_term_pre_restore = st.long_term_pre_restore ∧
    (restoreQdrantStep st bu).backups = st.backups ∧
    (restoreQdrantStep st bu).model = st.model := by
  unfold restoreQdrantStep
  split
  · split <;> simp
  · simp

theorem restoreQdrantStep_skip (st : MigrationState) (bu : BackupUnit)
    (h : bu.qdrant_export = none ∨ st.qdrant = none ∨ st.model = false) :
    (restoreQdrantStep st bu).qdrant = st.qdrant := by
  unfold restoreQdrantStep
  rcases h with h | h | h <;> simp [h]

theorem restoreQdrantStep_empty (st : MigrationState) (bu : BackupUnit)
    (h : bu.qdrant_export = some []) :
    (restoreQdrantStep st bu).qdrant = st.qdrant := by
  unfold restoreQdrantStep
  cases hq : st.qdrant <;> cases hm : st.model <;> simp [h, hq, hm]

theorem restoreQdrantStep_run (st : MigrationState) (bu : BackupUnit)
    (data : List NativeRecord) (vs : VectorStore)
    (h : bu.qdrant_export = some data) (hq : st.qdrant = some vs)
    (hm : st.model = true) (hne : data ≠ []) :
    (restoreQdrantStep st bu).qdrant =
      some (VectorStore.mk (some (Collection.mk 384 "Cosine"
        ((data.map restorePoint).foldl upsertPoint [])))) := by
  unfold restoreQdrantStep
  simp [h, hq, hm, hne]

theorem restore_found (st : MigrationState) (bid : String) (bu : BackupUnit)
    (h : findBackup bid st.backups = some bu) :
    restore st bid =
      ⟨restoreQdrantStep (restoreJsonStep (restoreSqliteStep st bu) bu) bu,
        true, none⟩ := by
  unfold restore
  rw [h]

theorem upsertPoint_adds_id (acc : List QdrantPoint) (x : QdrantPoint) :
    ∃ p ∈ upsertPoint acc x, p.id = x.id := by
  unfold upsertPoint
  by_cases h : acc.any (fun q => q.id = x.id) = true
  · simp only [h, if_true]
    rcases List.any_eq_true.mp h with ⟨q, hq, hid⟩
    have hid' : q.id = x.id := of_decide_eq_true hid
    refine ⟨if q.id = x.id then x else q, List.mem_map_of_mem _ hq, ?_⟩
    simp [hid']
  · simp only [h, if_false]
    exact ⟨x, by simp, rfl⟩

theorem upsertPoint_keeps_id (acc : List QdrantPoint) (x : QdrantPoint)
    (i : String) (h : ∃ p ∈ acc, p.id = i) :
    ∃ p ∈ upsertPoint acc x, p.id = i := by
  rcases h with ⟨p, hp, hpi⟩
  unfold upsertPoint
  by_cases hc : acc.any (fun q => q.id = x.id) = true
  · simp only [hc, if_true]
    refine ⟨if p.id = x.id then x else p, List.mem_map_of_mem _ hp, ?_⟩
    by_cases hpx : p.id = x.id
    · rw [if_pos hpx, ← hpx]
      exact hpi
    · rw [if_neg hpx]
      exact hpi
  · simp only [hc, if_false]
    exact ⟨p, List.mem_append_left _ hp, hpi⟩

theorem foldl_upsert_keeps_id (l : List QdrantPoint) (acc : List QdrantPoint)
    (i : String) (h : ∃ p ∈ acc, p.id = i) :
    ∃ p ∈ l.foldl upsertPoint acc, p.id = i := by
  induction l generalizing acc with
  | nil => exact h
  | cons x xs ih => exact ih (upsertPoint acc x) (upsertPoint_keeps_id acc x i h)

theorem foldl_upsert_mem_id (l : List QdrantPoint) (acc : List QdrantPoint)
    (q : QdrantPoint) (h : q ∈ l) :
    ∃ p ∈ l.foldl upsertPoint acc, p.id = q.id := by
  induction l generalizing acc with
  | nil => cases h
  | cons x xs ih =>
    rcases List.mem_cons.mp h with rfl | h'
    · exact foldl_upsert_keeps_id xs (upsertPoint acc q) q.id (upsertPoint_adds_id acc q)
    · exact ih (upsertPoint acc x) h'

/-- Whether an export record came from the session_memories table. -/
def isSessionRec : ExportRecord → Bool
  | .session _ => true
  | _ => false

/-- Whether an export record came from the entities table. -/
def isEntityRec : ExportRecord → Bool
  | .entity _ => true
  | _ => false

/-- Whether an export record came from the relationships table. -/
def isRelRec : ExportRecord → Bool
  | .rel _ => true
  | _ => false

/-! ### Concrete fixtures used by witnesses and counterexamples -/

def memRowA : MemRow := ⟨1, "2024-01-01T00:00:00Z", "action", "alpha"⟩

def memRowB : MemRow := ⟨2, "2024-01-02T00:00:00Z", "goal", "beta"⟩

def memRowC : MemRow := ⟨3, "2024-01-03T00:00:00Z", "thought", "gamma"⟩

def sessionRowA : SessionRow :=
  ⟨1, "s1", "2024-01-01T00:00:00Z", "summary", "session one", none, 5⟩

def dbLiveA : SqliteDb := ⟨some [memRowB, memRowA], some [sessionRowA], none, none, []⟩

def dbBackupB : SqliteDb := ⟨some [memRowC], none, none, none, []⟩

def dbNoMemories : SqliteDb := ⟨none, none, none, none, []⟩

def payloadFull : Payload :=
  ⟨some 7, some "insight", some ["t1", "t2"], some 8, some "content one", some "2024-01-01"⟩

def payloadBare : Payload := ⟨none, none, none, none, none, none⟩

def pointA : QdrantPoint := ⟨"a", [1, 0], payloadFull⟩

def pointBare : QdrantPoint := ⟨"bare", [0, 1], payloadBare⟩

def natRecA : NativeRecord := ⟨"qdrant", "a", [1, 0], payloadFull⟩

/-! ### Claim theorems -/

/-- C4: upgrading the relational schema is idempotent — the second run
returns the same store and creates zero tables — and each of the three
extension tables is reported created exactly when it was absent. -/
theorem upgrade_schema_idempotent :
    (∀ dbFile : Option SqliteDb,
      upgrade_schema (upgrade_schema dbFile).1 = ((upgrade_schema dbFile).1, [])) ∧
    (∀ db : SqliteDb,
      ("session_memories" ∈ (upgrade_schema (some db)).2 ↔ db.session_memories = none) ∧
      ("entities" ∈ (upgrade_schema (some db)).2 ↔ db.entities = none) ∧
      ("relationships" ∈ (upgrade_schema (some db)).2 ↔ db.relationships = none)) := by
  constructor
  · intro dbFile
    cases dbFile with
    | none => rfl
    | some db =>
      rcases db with ⟨m, s, e, r, idx⟩
      cases m <;> cases s <;> cases e <;> cases r <;>
        simp [upgrade_schema, tablesOf, addSessionTable, addEntitiesTable,
          addRelationshipsTable]
  · intro db
    rcases db with ⟨m, s, e, r, idx⟩
    cases m <;> cases s <;> cases e <;> cases r <;>
      simp [upgrade_schema, tablesOf, addSessionTable, addEntitiesTable,
        addRelationshipsTable]

/-- C7: the relational export returns, without raising, the memory rows
sorted by id ascending, followed by the session-memory, entity, and
relationship rows; an absent optional table contributes zero records of
its source, and an absent store file yields an empty export. -/
theorem export_sqlite_order_tolerance :
    (export_sqlite none).result = .ok [] ∧
    ∀ (db : SqliteDb) (ms : List MemRow), db.memories = some ms →
      ∃ l : List ExportRecord,
        (export_sqlite (some db)).result = .ok l ∧
        l = (orderById MemRow.id ms).map .mem ++
            (orderById SessionRow.id (db.session_memories.getD [])).map .session ++
            (orderById EntityRow.id (db.entities.getD [])).map .entity ++
            (orderById RelRow.id (db.relationships.getD [])).map .rel ∧
        (orderById MemRow.id ms).Sorted (leId MemRow.id) ∧
        (orderById MemRow.id ms).Perm ms ∧
        (db.session_memories = none → l.countP isSessionRec = 0) ∧
        (db.entities = none → l.countP isEntityRec = 0) ∧
        (db.relationships = none → l.countP isRelRec = 0) := by
  refine ⟨rfl, ?_⟩
  intro db ms h
  refine ⟨_, by simp [export_sqlite, h], rfl,
    orderById_sorted MemRow.id ms, orderById_perm MemRow.id ms, ?_, ?_, ?_⟩ <;>
    intro hnone <;>
    simp [hnone, List.countP_append, List.countP_map, Function.comp_def,
      isSessionRec, isEntityRec, isRelRec, orderById]

/-- C9 counterexample: when the store file exists but has no memories
table, the relational export terminates by an uncaught exception with the
connection it opened still open — the claim that no execution terminates
with its connection open is false. -/
theorem export_sqlite_leak_counterexample :
    (export_sqlite (some dbNoMemories)).result = .error "no such table: memories" ∧
    (export_sqlite (some dbNoMemories)).connLeaked = true :=
  ⟨rfl, rfl⟩

/-- C9 amended: each relational operation acquires its own connection;
the schema upgrade releases it on every exit path (its modelled execution
has no exceptional exit, and the instrumented run computes the very
result `upgrade_schema` returns), while the relational export releases it
on every normal exit but leaves it open exactly when it terminates by an
uncaught exception. -/
theorem relational_conn_release (dbFile : Option SqliteDb) :
    ((export_sqlite dbFile).connLeaked = true ↔
      ∃ e, (export_sqlite dbFile).result = .error e) ∧
    (upgrade_schema_run dbFile).connLeaked = false ∧
    (upgrade_schema_run dbFile).result = upgrade_schema dbFile := by
  refine ⟨?_, ?_, ?_⟩
  · cases dbFile with
    | none => simp [export_sqlite]
    | some db => cases h : db.memories <;> simp [export_sqlite, h]
  · cases dbFile <;> rfl
  · cases dbFile <;> rfl

/-- C1: non-destructive restore — when a backup holds a relational
artifact with content B and the live store file holds content A, restore
first preserves A exactly in the single `.pre_restore` sibling and then
makes the live store equal B; the same holds for the flat JSON export
file; and a second restore in a row overwrites the previous safety copy
(afterwards it holds B, the content live before the second restore). -/
theorem restore_nondestructive (st : MigrationState) (bid : String)
    (bu : BackupUnit) (A B : SqliteDb) (jA jB : String)
    (hfind : findBackup bid st.backups = some bu)
    (hbuDb : bu.short_term_db = some B)
    (hstDb : st.short_term_db = some A)
    (hbuJson : bu.long_term_json = some jB)
    (hstJson : st.long_term_json = some jA) :
    (restore st bid).state.short_term_pre_restore = some A ∧
    (restore st bid).state.short_term_db = some B ∧
    (restore st bid).state.long_term_pre_restore = some jA ∧
    (restore st bid).state.long_term_json = some jB ∧
    (restore (restore st bid).state bid).state.short_term_pre_restore = some B ∧
    (restore (restore st bid).state bid).state.long_term_pre_restore = some jB := by
  have hres := restore_found st bid bu hfind
  have h1pre : (restore st bid).state.short_term_pre_restore = some A := by
    simp [hres, restoreQdrantStep_other, restoreJsonStep_other,
      restoreSqliteStep_pre, hbuDb, hstDb]
  have h1db : (restore st bid).state.short_term_db = some B := by
    simp [hres, restoreQdrantStep_other, restoreJsonStep_other,
      restoreSqliteStep_short_term_db, hbuDb]
  have h1jpre : (restore st bid).state.long_term_pre_restore = some jA := by
    simp [hres, restoreQdrantStep_other, restoreJsonStep_pre,
      restoreSqliteStep_other, hbuJson, hstJson]
  have h1json : (restore st bid).state.long_term_json = some jB := by
    simp [hres, restoreQdrantStep_other, restoreJsonStep_long_term_json, hbuJson]
  have hbk : (restore st bid).state.backups = st.backups := by
    simp [hres, restoreQdrantStep_other, restoreJsonStep_other, restoreSqliteStep_other]
  have hfind2 : findBackup bid (restore st bid).state.backups = some bu := by
    rw [hbk]; exact hfind
  have hres2 := restore_found (restore st bid).state bid bu hfind2
  have h2pre : (restore (restore st bid).state bid).state.short_term_pre_restore = some B := by
    simp [hres2, restoreQdrantStep_other, restoreJsonStep_other,
      restoreSqliteStep_pre, hbuDb, h1db]
  have h2jpre : (restore (restore st bid).state bid).state.long_term_pre_restore = some jB := by
    simp [hres2, restoreQdrantStep_other, restoreJsonStep_pre,
      restoreSqliteStep_other, hbuJson, h1json]
  exact ⟨h1pre, h1db, h1jpre, h1json, h2pre, h2jpre⟩

def buFull : BackupUnit := ⟨some dbBackupB, some "JSON-B", some [], some
  ⟨"20240101_000000", "2024-01-01T00:00:00Z", ["short_term.db", "long_term.json", "qdrant_export.json"], 1, 0⟩⟩

def stLive : MigrationState :=
  ⟨some dbLiveA, none, some "JSON-A", none, [("20240101_000000", buFull)], none, false⟩

/-- C1 witness: the non-destructive-restore theorem applied to a concrete
live state and backup. -/
theorem restore_nondestructive_witness :
    (restore stLive "20240101_000000").state.short_term_pre_restore = some dbLiveA ∧
    (restore stLive "20240101_000000").state.short_term_db = some dbBackupB ∧
    (restore stLive "20240101_000000").state.long_term_pre_restore = some "JSON-A" ∧
    (restore stLive "20240101_000000").state.long_term_json = some "JSON-B" ∧
    (restore (restore stLive "20240101_000000").state "20240101_000000").state.short_term_pre_restore
      = some dbBackupB ∧
    (restore (restore stLive "20240101_000000").state "20240101_000000").state.long_term_pre_restore
      = some "JSON-B" :=
  restore_nondestructive stLive "20240101_000000" buFull dbLiveA dbBackupB
    "JSON-A" "JSON-B" rfl rfl rfl rfl rfl

def vsOnePoint : VectorStore := ⟨some ⟨2, "Cosine", [pointBare]⟩⟩

def stModelFail : MigrationState := ⟨none, none, none, none, [], some vsOnePoint, false⟩

/-- C6 counterexample: the construction state "client set, embedding
model failed" is reachable (in `__init__` the client is assigned before
`SentenceTransformer` can raise); in it the vector export — guarded only
by `if not self.qdrant` — returns the full collection, not an empty
result, so the claim that every vector read returns empty whenever the
vector store or embedding capability is unreachable at construction is
false. -/
theorem degraded_claim_counterexample :
    stModelFail.qdrant = some vsOnePoint ∧
    stModelFail.model = false ∧
    export_qdrant stModelFail.qdrant Format.native (fun _ => "") =
      [QExport.native (toNative pointBare)] ∧
    export_qdrant stModelFail.qdrant Format.native (fun _ => "") ≠ [] := by
  refine ⟨rfl, rfl, rfl, by decide⟩

/-- C6 amended: when the vector store client itself is unavailable from
construction, every vector export returns an empty list in every dialect,
restore leaves the (absent) client untouched, and the relational halves
of restore — outcome and all four file fields — are exactly what they
would be with the client available, so relational operations are
unaffected and nothing raises; but when only the embedding capability
failed at construction, the client remains set and vector reads return
the full collection (one record per stored point) rather than an empty
result, while the vector half of restore is still skipped. -/
theorem degraded_mode_safety (st : MigrationState) (fmt : Format)
    (md5 : String → String) (bid : String) (vs : VectorStore) :
    (st.qdrant = none →
      export_qdrant st.qdrant fmt md5 = [] ∧
      (restore st bid).state.qdrant = none ∧
      (restore st bid).ok = (restore { st with qdrant := some vs } bid).ok ∧
      (restore st bid).state.short_term_db =
        (restore { st with qdrant := some vs } bid).state.short_term_db ∧
      (restore st bid).state.short_term_pre_restore =
        (restore { st with qdrant := some vs } bid).state.short_term_pre_restore ∧
      (restore st bid).state.long_term_json =
        (restore { st with qdrant := some vs } bid).state.long_term_json ∧
      (restore st bid).state.long_term_pre_restore =
        (restore { st with qdrant := some vs } bid).state.long_term_pre_restore) ∧
    (∀ vs' : VectorStore, st.qdrant = some vs' → st.model = false →
      (export_qdrant st.qdrant fmt md5).length = (scrollPoints vs').length ∧
      (restore st bid).state.qdrant = some vs') := by
  constructor
  · intro h
    refine ⟨by rw [h]; rfl, ?_⟩
    cases hf : findBackup bid st.backups with
    | none =>
      have hf' : findBackup bid ({ st with qdrant := some vs } : MigrationState).backups =
          none := hf
      simp [restore, hf, hf', h]
    | some bu =>
      have hf' : findBackup bid ({ st with qdrant := some vs } : MigrationState).backups =
          some bu := hf
      have hq2 : (restoreJsonStep (restoreSqliteStep st bu) bu).qdrant = none := by
        simp [restoreJsonStep_other, restoreSqliteStep_other, h]
      have hskip := restoreQdrantStep_skip (restoreJsonStep (restoreSqliteStep st bu) bu) bu
        (Or.inr (Or.inl hq2))
      refine ⟨?_, ?_, ?_, ?_, ?_, ?_⟩ <;>
        simp [restore, hf, hf', hskip, hq2, restoreQdrantStep_other,
          restoreJsonStep_other, restoreJsonStep_pre, restoreJsonStep_long_term_json,
          restoreSqliteStep_other, restoreSqliteStep_pre, restoreSqliteStep_short_term_db]
  · intro vs' hq hm
    refine ⟨by rw [hq]; simp [export_qdrant], ?_⟩
    cases hf : findBackup bid st.backups with
    | none => simp [restore, hf, hq]
    | some bu =>
      have hm2 : (restoreJsonStep (restoreSqliteStep st bu) bu).model = false := by
        simp [restoreJsonStep_other, restoreSqliteStep_other, hm]
      have hskip := restoreQdrantStep_skip (restoreJsonStep (restoreSqliteStep st bu) bu) bu
        (Or.inr (Or.inr hm2))
      simp [restore_found st bid bu hf, hskip, restoreJsonStep_other,
        restoreSqliteStep_other, hq]

/-- C6 witness: the degraded-mode theorem applied at a concrete
client-unavailable state and at a concrete embedding-only-failure
state. -/
theorem degraded_mode_safety_witness :
    export_qdrant stLive.qdrant Format.native (fun _ => "") = [] ∧
    (export_qdrant stModelFail.qdrant Format.native (fun _ => "")).length =
      (scrollPoints vsOnePoint).length :=
  ⟨((degraded_mode_safety stLive Format.native (fun _ => "") "20240101_000000"
      (VectorStore.mk none)).1 rfl).1,
   ((degraded_mode_safety stModelFail Format.native (fun _ => "") "20240101_000000"
      (VectorStore.mk none)).2 vsOnePoint rfl rfl).1⟩

def vsC10 : VectorStore := ⟨some ⟨2, "Cosine", [pointA]⟩⟩

def buVecOnly : BackupUnit := ⟨none, none, some [natRecA], none⟩

def stNoModel : MigrationState :=
  ⟨none, none, none, none, [("b", buVecOnly)], some vsC10, false⟩

/-- C10: the vector half of restore runs only when both the Qdrant client
and the embedding model were constructed — with the client present but
the model absent, the artifact's vectors are silently not restored: the
vector store is left untouched while restore still returns the same
success it returns with the model present, with no distinct partial
outcome. (The embedded restore never consults an embedding capability at
all: the artifact's stored vectors would suffice.) -/
theorem restore_skips_vectors_without_model (st : MigrationState) (bid : String)
    (bu : BackupUnit) (data : List NativeRecord) (vs : VectorStore)
    (hfind : findBackup bid st.backups = some bu)
    (_hdata : bu.qdrant_export = some data)
    (hq : st.qdrant = some vs)
    (hm : st.model = false) :
    (restore st bid).state.qdrant = some vs ∧
    (restore st bid).ok = true ∧
    (restore st bid).reportedAvailable = none ∧
    (restore st bid).ok = (restore { st with model := true } bid).ok := by
  have hm2 : (restoreJsonStep (restoreSqliteStep st bu) bu).model = false := by
    simp [restoreJsonStep_other, restoreSqliteStep_other, hm]
  have hskip := restoreQdrantStep_skip (restoreJsonStep (restoreSqliteStep st bu) bu) bu
    (Or.inr (Or.inr hm2))
  have hf' : findBackup bid ({ st with model := true } : MigrationState).backups = some bu :=
    hfind
  refine ⟨?_, ?_, ?_, ?_⟩ <;>
    simp [restore, hfind, hf', hskip, restoreJsonStep_other, restoreSqliteStep_other, hq]

/-- C10 witness: the model-absent theorem applied at a concrete state
whose backup holds one vector record. -/
theorem restore_skips_vectors_without_model_witness :
    (restore stNoModel "b").state.qdrant = some vsC10 :=
  (restore_skips_vectors_without_model stNoModel "b" buVecOnly [natRecA] vsC10
    rfl rfl rfl rfl).1

def vsWithPoint : VectorStore := ⟨some ⟨2, "Cosine", [pointBare]⟩⟩

def buEmptyVec : BackupUnit := ⟨none, none, some [], none⟩

def stEmptyVec : MigrationState :=
  ⟨none, none, none, none, [("b", buEmptyVec)], some vsWithPoint, true⟩

def stVecDim : MigrationState :=
  ⟨none, none, none, none, [("b", buVecOnly)], some (VectorStore.mk none), true⟩

/-- C2 counterexample: with client and model available, (i) restoring a
backup whose vector artifact is an empty list leaves the collection
exactly as it was — it is not recreated empty — and (ii) restoring a
nonempty artifact whose first vector has dimension 2 creates the
collection at the fixed dimension 384, not 2; both contradict the
claim. -/
theorem restore_vector_claim_counterexample :
    buEmptyVec.qdrant_export = some [] ∧
    (restore stEmptyVec "b").state.qdrant = stEmptyVec.qdrant ∧
    stEmptyVec.qdrant = some (VectorStore.mk (some (Collection.mk 2 "Cosine" [pointBare]))) ∧
    buVecOnly.qdrant_export = some [natRecA] ∧
    natRecA.vector.length = 2 ∧
    (restore stVecDim "b").state.qdrant =
      some (VectorStore.mk (some (Collection.mk 384 "Cosine" [restorePoint natRecA]))) ∧
    (384 : Nat) ≠ 2 := by
  refine ⟨rfl, rfl, rfl, rfl, rfl, rfl, by decide⟩

/-- C2 amended: when the artifact exists, the artifact list is nonempty,
and both the client and the model are available, restore recreates the
collection at the fixed dimension 384 with cosine distance and upserts
every record from the artifact (every artifact id ends up present); when
the artifact is an empty list, the vector store is left unchanged — the
collection is not recreated. -/
theorem restore_vector_half (st : MigrationState) (bid : String)
    (bu : BackupUnit) (data : List NativeRecord) (vs : VectorStore)
    (hfind : findBackup bid st.backups = some bu)
    (hdata : bu.qdrant_export = some data)
    (hq : st.qdrant = some vs)
    (hm : st.model = true) :
    (data = [] → (restore st bid).state.qdrant = st.qdrant) ∧
    (data ≠ [] → ∃ c : Collection,
      (restore st bid).state.qdrant = some (VectorStore.mk (some c)) ∧
      c.dim = 384 ∧ c.metric = "Cosine" ∧
      c.points = (data.map restorePoint).foldl upsertPoint [] ∧
      ∀ e ∈ data, ∃ p ∈ c.points, p.id = e.id) := by
  have hres := restore_found st bid bu hfind
  have hq2 : (restoreJsonStep (restoreSqliteStep st bu) bu).qdrant = st.qdrant := by
    simp [restoreJsonStep_other, restoreSqliteStep_other]
  have hm2 : (restoreJsonStep (restoreSqliteStep st bu) bu).model = true := by
    simp [restoreJsonStep_other, restoreSqliteStep_other, hm]
  constructor
  · rintro rfl
    have := restoreQdrantStep_empty (restoreJsonStep (restoreSqliteStep st bu) bu) bu hdata
    simp [hres, this, hq2]
  · intro hne
    have hrun := restoreQdrantStep_run (restoreJsonStep (restoreSqliteStep st bu) bu) bu
      data vs hdata (hq2.trans hq) hm2 hne
    refine ⟨Collection.mk 384 "Cosine" ((data.map restorePoint).foldl upsertPoint []),
      by simp [hres, hrun], rfl, rfl, rfl, ?_⟩
    intro e he
    have : restorePoint e ∈ data.map restorePoint := List.mem_map_of_mem restorePoint he
    exact foldl_upsert_mem_id (data.map restorePoint) [] (restorePoint e) this

/-- C2 witness: the amended theorem applied at a concrete state with an
empty vector artifact. -/
theorem restore_vector_half_witness :
    (restore stEmptyVec "b").state.qdrant = stEmptyVec.qdrant :=
  (restore_vector_half stEmptyVec "b" buEmptyVec [] vsWithPoint
    rfl rfl rfl rfl).1 rfl

/-- C3: for a well-formed store (the memories table exists where the
store file does, the vector collection is reachable), backup succeeds and
its manifest counts the relational rows of every existing table exactly
and the vector records exactly; the manifest write is the last write of
the backup, strictly after every artifact write. -/
theorem backup_manifest_counts (st : MigrationState) (now : String)
    (md5 : String → String) (db : SqliteDb) (ms : List MemRow)
    (vs : VectorStore) (c : Collection)
    (hdb : st.short_term_db = some db) (hms : db.memories = some ms)
    (hq : st.qdrant = some vs) (hc : vs.collection = some c) :
    ∃ (bu : BackupUnit) (trace : List WriteEvent),
      backup st now md5 = .ok (now, bu, trace) ∧
      ∃ m : Manifest, bu.manifest = some m ∧
        m.sqlite_entries =
          ms.length + (db.session_memories.getD []).length +
          (db.entities.getD []).length + (db.relationships.getD []).length ∧
        m.qdrant_entries = c.points.length ∧
        trace.getLast? = some WriteEvent.manifestFile ∧
        WriteEvent.manifestFile ∉ trace.dropLast := by
  have hexp : (export_sqlite (some db)).result = .ok
      ((orderById MemRow.id ms).map .mem ++
       (orderById SessionRow.id (db.session_memories.getD [])).map .session ++
       (orderById EntityRow.id (db.entities.getD [])).map .entity ++
       (orderById RelRow.id (db.relationships.getD [])).map .rel) := by
    simp [export_sqlite, hms]
  have hexp' : (export_sqlite st.short_term_db).result = .ok
      ((orderById MemRow.id ms).map .mem ++
       (orderById SessionRow.id (db.session_memories.getD [])).map .session ++
       (orderById EntityRow.id (db.entities.getD [])).map .entity ++
       (orderById RelRow.id (db.relationships.getD [])).map .rel) := by
    rw [hdb]; exact hexp
  have hback :
      backup st now md5 = .ok (now,
        { short_term_db := st.short_term_db
          long_term_json := st.long_term_json
          qdrant_export := some (export_qdrant_native st.qdrant)
          manifest := some
            { backup_id := now
              created_at := now
              files := (if st.short_term_db.isSome then ["short_term.db"] else []) ++
                (if st.long_term_json.isSome then ["long_term.json"] else []) ++
                ["qdrant_export.json"]
              sqlite_entries := ((orderById MemRow.id ms).map ExportRecord.mem ++
                (orderById SessionRow.id (db.session_memories.getD [])).map ExportRecord.session ++
                (orderById EntityRow.id (db.entities.getD [])).map ExportRecord.entity ++
                (orderById RelRow.id (db.relationships.getD [])).map ExportRecord.rel).length
              qdrant_entries := (export_qdrant_native st.qdrant).length } },
        (if st.short_term_db.isSome then [WriteEvent.dbArtifact] else []) ++
        (if st.long_term_json.isSome then [WriteEvent.jsonArtifact] else []) ++
        [WriteEvent.qdrantArtifact, WriteEvent.manifestFile]) := by
    unfold backup
    rw [hexp']
  refine ⟨_, _, hback, _, rfl, ?_, ?_, ?_, ?_⟩
  · simp [orderById_length]
    omega
  · simp [export_qdrant_native, hq, scrollPoints, hc]
  · cases hj : st.long_term_json <;> simp [hdb, hj]
  · cases hj : st.long_term_json <;> simp [hdb, hj]

def stForBackup : MigrationState :=
  ⟨some dbLiveA, none, none, none, [], some vsC10, true⟩

/-- C3 witness: the backup-completeness theorem applied at a concrete
state with two memory rows, one session row, and one vector record. -/
theorem backup_manifest_counts_witness :
    ∃ (bu : BackupUnit) (trace : List WriteEvent),
      backup stForBackup "20240202_000000" (fun _ => "") = .ok ("20240202_000000", bu, trace) ∧
      ∃ m : Manifest, bu.manifest = some m ∧
        m.sqlite_entries =
          [memRowB, memRowA].length + ((dbLiveA.session_memories).getD []).length +
          ((dbLiveA.entities).getD []).length + ((dbLiveA.relationships).getD []).length ∧
        m.qdrant_entries = [pointA].length ∧
        trace.getLast? = some WriteEvent.manifestFile ∧
        WriteEvent.manifestFile ∉ trace.dropLast :=
  backup_manifest_counts stForBackup "20240202_000000" (fun _ => "")
    dbLiveA [memRowB, memRowA] vsC10 ⟨2, "Cosine", [pointA]⟩ rfl rfl rfl rfl

/-- C8: conversion into every supported dialect is total — each scrolled
record yields exactly one converted record — and missing optional payload
fields default instead of erroring: absent tags become the empty list and
absent importance becomes 5 in the converted record. -/
theorem convert_totality_defaults (p : QdrantPoint) (md5 : String → String) :
    (∀ (vs : VectorStore) (fmt : Format),
      (export_qdrant (some vs) fmt md5).length = (scrollPoints vs).length) ∧
    (p.payload.tags = none →
      (toMem0 md5 p).metadata_tags = [] ∧
      (toAmem p).tags = [] ∧ (toAmem p).keywords = []) ∧
    (p.payload.importance = none →
      (toMem0 md5 p).metadata_importance = 5 ∧ (toAmem p).importance = 5) := by
  refine ⟨fun vs fmt => by simp [export_qdrant], ?_, ?_⟩ <;>
    intro h <;> simp [toMem0, toAmem, h]

/-- C8 witness: the defaults theorem applied to a record whose payload
has no optional fields at all. -/
theorem convert_totality_defaults_witness :
    ((toMem0 (fun _ => "") pointBare).metadata_tags = [] ∧
      (toAmem pointBare).tags = [] ∧ (toAmem pointBare).keywords = []) ∧
    ((toMem0 (fun _ => "") pointBare).metadata_importance = 5 ∧
      (toAmem pointBare).importance = 5) :=
  ⟨(convert_totality_defaults pointBare (fun _ => "")).2.1 rfl,
   (convert_totality_defaults pointBare (fun _ => "")).2.2 rfl⟩

def buNoManifest : BackupUnit := ⟨some dbBackupB, none, none, none⟩

def stNoManifest : MigrationState :=
  ⟨some dbLiveA, none, none, none, [("b1", buNoManifest)], none, false⟩

/-- C5 counterexample: the directory "b1" exists but holds no manifest,
yet restore succeeds and overwrites the live relational store — so
restore does not fail with BackupNotFound when no manifest exists at the
derived path, and it does mutate a store, contrary to the claim. -/
theorem restore_without_manifest_counterexample :
    buNoManifest.manifest = none ∧
    (restore stNoManifest "b1").ok = true ∧
    (restore stNoManifest "b1").state.short_term_db = some dbBackupB ∧
    stNoManifest.short_term_db = some dbLiveA ∧
    dbLiveA ≠ dbBackupB := by
  refine ⟨rfl, rfl, rfl, rfl, by decide⟩

/-- C5 amended: restore fails — returning the unchanged state and
reporting the backup-directory listing — exactly when no directory exists
at the derived path; when the directory exists restore proceeds and
reports success even without a manifest; only the listing operation
treats a directory without a manifest as invalid, reporting exactly the
directories that contain one. -/
theorem restore_not_found_iff (st : MigrationState) (bid : String) :
    (findBackup bid st.backups = none →
      restore st bid = ⟨st, false, some (st.backups.map Prod.fst)⟩) ∧
    (∀ bu, findBackup bid st.backups = some bu →
      (restore st bid).ok = true ∧ (restore st bid).reportedAvailable = none) ∧
    (∀ b ∈ list_backups st, ∃ bu, (b.id, bu) ∈ st.backups ∧ bu.manifest.isSome) ∧
    (∀ kv ∈ st.backups, kv.2.manifest.isSome →
      ∃ b ∈ list_backups st, b.id = kv.1) := by
  refine ⟨?_, ?_, ?_, ?_⟩
  · intro h
    unfold restore
    rw [h]
  · intro bu h
    rw [restore_found st bid bu h]
    exact ⟨rfl, rfl⟩
  · intro b hb
    simp only [list_backups] at hb
    rcases List.mem_filterMap.mp hb with ⟨kv, hkv, hf⟩
    rcases Option.map_eq_some'.mp hf with ⟨m, hm, hb'⟩
    refine ⟨kv.2, ?_, by simp [hm]⟩
    have hmem : kv ∈ st.backups :=
      ((List.perm_insertionSort _ st.backups).mem_iff).mp hkv
    have hid : b.id = kv.1 := by rw [← hb']
    rw [hid]
    simpa using hmem
  · intro kv hkv hman
    rcases Option.isSome_iff_exists.mp hman with ⟨m, hm⟩
    refine ⟨⟨kv.1, m.created_at, m.sqlite_entries, m.qdrant_entries⟩, ?_, rfl⟩
    simp only [list_backups]
    apply List.mem_filterMap.mpr
    exact ⟨kv, ((List.perm_insertionSort _ st.backups).mem_iff).mpr hkv, by simp [hm]⟩

def stEmptyState : MigrationState := ⟨none, none, none, none, [], none, false⟩

/-- C5 amended witness: restore against an empty backup directory fails,
reports the (empty) listing, and mutates nothing. -/
theorem restore_not_found_iff_witness :
    restore stEmptyState "missing" = ⟨stEmptyState, false, some []⟩ :=
  (restore_not_found_iff stEmptyState "missing").1 rfl

/-- C7 witness: the export-order theorem applied to a concrete store with
two (unsorted) memory rows and one session row. -/
theorem export_sqlite_order_tolerance_witness :
    ∃ l : List ExportRecord,
      (export_sqlite (some dbLiveA)).result = .ok l ∧
      l = (orderById MemRow.id [memRowB, memRowA]).map .mem ++
          (orderById SessionRow.id (dbLiveA.session_memories.getD [])).map .session ++
          (orderById EntityRow.id (dbLiveA.entities.getD [])).map .entity ++
          (orderById RelRow.id (dbLiveA.relationships.getD [])).map .rel ∧
      (orderById MemRow.id [memRowB, memRowA]).Sorted (leId MemRow.id) ∧
      (orderById MemRow.id [memRowB, memRowA]).Perm [memRowB, memRowA] ∧
      (dbLiveA.session_memories = none → l.countP isSessionRec = 0) ∧
      (dbLiveA.entities = none → l.countP isEntityRec = 0) ∧
      (dbLiveA.relationships = none → l.countP isRelRec = 0) :=
  export_sqlite_order_tolerance.2 dbLiveA [memRowB, memRowA] rfl

end MemoryMigration
